import Mathlib

/-
Verification of the e-commerce backend in src/main.py against its
specification, via a shallow embedding in Lean 4.

Conventions of the embedding:
- Documents of the store are association lists from field names to values
  (mirroring python dicts; keys created by the code here are unique).
- The document store (from the external `database` module, whose code is
  described by spec section 4.1) is a map from collection names to document
  sequences, plus a counter generating fresh store identifiers; a generated
  identifier is rendered as the 24-character lowercase hex string, mirroring
  `str(ObjectId)`.
- Exceptions become explicit result values: an `HTTPException(code, detail)`
  becomes `.error code detail`.
-/

set_option autoImplicit false

namespace ECom

/-- A line item of an order: schemas.py is not under src/.
Modelled from the spec: "an ordered sequence of line items, each with a
product identifier (string, must be a valid identifier format) and a
quantity (positive integer)" (spec section 3, Order). -/
structure OrderItem where
  product_id : String
  quantity : Nat
deriving DecidableEq

/-- A field value of a stored document. `oid` is a store-generated object
identifier (a 12-byte value, embedded as the corresponding Nat below 16^24).
`items` holds serialized order line items (see `orderToDoc`). Prices are
embedded as rationals; their decimal rendering is never produced by any
endpoint in src/main.py. -/
inductive Value where
  | str : String → Value
  | num : Rat → Value
  | boolean : Bool → Value
  | oid : Nat → Value
  | items : List OrderItem → Value
deriving DecidableEq

/-- A document: a python dict with string keys, as an association list. -/
abbrev Doc := List (String × Value)

/-- Python `d[k] = v`: overwrite in place if the key exists, else append. -/
def dictSet : Doc → String → Value → Doc
  | [], k, v => [(k, v)]
  | p :: rest, k, v => if p.fst = k then (k, v) :: rest else p :: dictSet rest k v

/-- Python `d.get(k)`: the value at the key, or `none`. -/
def dictGet : Doc → String → Option Value
  | [], _ => none
  | p :: rest, k => if p.fst = k then some p.snd else dictGet rest k

/-- Python `d.pop(k, None)`: the dict without the key. -/
def dictPop : Doc → String → Doc
  | [], _ => []
  | p :: rest, k => if p.fst = k then dictPop rest k else p :: dictPop rest k

/-- Hex digit character, lowercase, as produced by `str(ObjectId)`. -/
def hexDigitChar (n : Nat) : Char :=
  if n < 10 then Char.ofNat (48 + n) else Char.ofNat (87 + n)

/-- The 24-character lowercase hex rendering of a store identifier,
mirroring `str(ObjectId)` (ObjectIds are 12 bytes, so values below 16^24). -/
def hex24 (n : Nat) : String :=
  String.mk ((List.range 24).map (fun i => hexDigitChar (n / 16 ^ (23 - i) % 16)))

/-- Whether a character is a hex digit, as accepted by `bytes.fromhex`. -/
def isHexChar (c : Char) : Bool :=
  (48 ≤ c.toNat && c.toNat ≤ 57) || (97 ≤ c.toNat && c.toNat ≤ 102)
    || (65 ≤ c.toNat && c.toNat ≤ 70)

/-- `bson.ObjectId.is_valid` on a string: exactly 24 hex characters
(case-insensitive). `ObjectId(s)` for a str s requires len(s) == 24 and
`bytes.fromhex(s)` to yield 12 bytes, which at length 24 forces every
character to be a hex digit. -/
def objectIdIsValid (s : String) : Bool :=
  s.length == 24 && s.data.all isHexChar

/-- Numeric value of one hex character (either case), 0 on non-hex input. -/
def hexCharVal (c : Char) : Nat :=
  if 48 ≤ c.toNat && c.toNat ≤ 57 then c.toNat - 48
  else if 97 ≤ c.toNat && c.toNat ≤ 102 then c.toNat - 87
  else if 65 ≤ c.toNat && c.toNat ≤ 70 then c.toNat - 55
  else 0

/-- The identifier denoted by a well-formed hex string: `ObjectId(s)`
parses the 24 hex characters big-endian, case-insensitively. -/
def parseHex (s : String) : Nat :=
  s.data.foldl (fun acc c => 16 * acc + hexCharVal c) 0

/-- The document store: named collections of documents in insertion order,
plus the generator state for fresh identifiers.
Modelled from the spec: the `database` module is not under src/; spec
section 4.1 describes a gateway owning the store connection with generic
insert/query-all operations per named collection, identifiers being
store-assigned and opaque. -/
structure Store where
  colls : List (String × List Doc)
  nextId : Nat
deriving DecidableEq

/-- The documents of a named collection (a collection never written is empty). -/
def getColl : List (String × List Doc) → String → List Doc
  | [], _ => []
  | p :: rest, name => if p.fst = name then p.snd else getColl rest name

/-- Replace a named collection's contents (creating the collection if new). -/
def setColl : List (String × List Doc) → String → List Doc → List (String × List Doc)
  | [], name, ds => [(name, ds)]
  | p :: rest, name, ds =>
      if p.fst = name then (name, ds) :: rest else p :: setColl rest name ds

/-- Gateway insert, `create_document(collection_name, data)`.
Modelled from the spec: "insert(collectionName, record) → generated
identifier" (spec section 4.1); the store assigns a fresh ObjectId to the
`_id` field and the generated identifier is returned rendered as a string
(spec section 3: "an opaque, store-assigned identifier, rendered to clients
as a string"). -/
def create_document (s : Store) (name : String) (d : Doc) : String × Store :=
  let d2 := dictSet d "_id" (Value.oid s.nextId)
  (hex24 s.nextId,
   { colls := setColl s.colls name (getColl s.colls name ++ [d2]),
     nextId := s.nextId + 1 })

/-- Gateway query-all, `get_documents(collection_name)`.
Modelled from the spec: "fetchAll(collectionName) → sequence of records"
(spec section 4.1), returned in store order. -/
def get_documents (s : Store) (name : String) : List Doc :=
  getColl s.colls name

/-- `db["product"].find_one({"_id": ObjectId(pid)})`: the first stored
product document whose `_id` equals the parsed identifier, if any. -/
def findProduct (s : Store) (pid : String) : Option Doc :=
  (getColl s.colls "product").find?
    (fun d => decide (dictGet d "_id" = some (Value.oid (parseHex pid))))

/-- An order request, `OrderRequest(Order)`: schemas.py is not under src/.
Modelled from the spec: an Order is "an ordered sequence of line items"
(spec section 3); the order-creation request body is
`{items: [{product_id, quantity}], ...}` (spec section 6). -/
structure Order where
  items : List OrderItem
deriving DecidableEq

/-- Serialization of the order request into the inserted document.
Modelled from the spec: `create_document` persists the request record as
the order document (spec section 4.2 step 2). -/
def orderToDoc (o : Order) : Doc :=
  [("items", Value.items o.items)]

/-- Result of a request handler: a normal JSON reply or an
`HTTPException(status_code, detail)`. -/
inductive CreateOrderResult where
  | error : Nat → String → CreateOrderResult
  | created : String → CreateOrderResult
deriving DecidableEq

/-- A validation failure for one line item, carrying the offending value:
`InvalidInput` (malformed identifier, HTTP 400) or `NotFound` (no matching
product, HTTP 404). -/
inductive ItemErr where
  | invalid : String → ItemErr
  | notFound : String → ItemErr
deriving DecidableEq

/-- The per-item checks of the loop body in `create_order` (src/main.py
lines 64-69): first the format check, then the existence check. -/
def itemError (s : Store) (i : OrderItem) : Option ItemErr :=
  if objectIdIsValid i.product_id = false then some (ItemErr.invalid i.product_id)
  else
    match findProduct s i.product_id with
    | none => some (ItemErr.notFound i.product_id)
    | some _ => none

/-- The validation loop of `create_order`: items are examined in client
order and the first failure is raised, skipping the rest. -/
def validateItems (s : Store) : List OrderItem → Option ItemErr
  | [] => none
  | i :: rest =>
      match itemError s i with
      | some e => some e
      | none => validateItems s rest

/-- `create_order` (src/main.py lines 60-75): validate every line item in
order, fail-fast with HTTPException 400/404 naming the offending value and
leave the store untouched; otherwise insert the order document and return
its generated identifier with status "created". -/
def create_order (s : Store) (o : Order) : CreateOrderResult × Store :=
  match validateItems s o.items with
  | some (ItemErr.invalid pid) => (CreateOrderResult.error 400 ("Invalid product id: " ++ pid), s)
  | some (ItemErr.notFound pid) => (CreateOrderResult.error 404 ("Product not found: " ++ pid), s)
  | none =>
      let r := create_document s "order" (orderToDoc o)
      (CreateOrderResult.created r.fst, r.snd)

/-- The fixed demo products of `seed_products` (src/main.py lines 85-110),
in source order, field by field. -/
def demo : List Doc :=
  [ [ ("title", Value.str "Classic Tee"),
      ("description", Value.str "Soft cotton tee in multiple colors."),
      ("price", Value.num 24.99),
      ("category", Value.str "Apparel"),
      ("image", Value.str "https://images.unsplash.com/photo-1512436991641-6745cdb1723f?q=80&w=1200&auto=format&fit=crop"),
      ("in_stock", Value.boolean true) ],
    [ ("title", Value.str "Minimal Backpack"),
      ("description", Value.str "Durable everyday backpack with laptop sleeve."),
      ("price", Value.num 79.0),
      ("category", Value.str "Accessories"),
      ("image", Value.str "https://images.unsplash.com/photo-1500530855697-b586d89ba3ee?q=80&w=1200&auto=format&fit=crop"),
      ("in_stock", Value.boolean true) ],
    [ ("title", Value.str "Ceramic Mug"),
      ("description", Value.str "12oz matte-finish mug. Dishwasher safe."),
      ("price", Value.num 14.5),
      ("category", Value.str "Home"),
      ("image", Value.str "https://images.unsplash.com/photo-1517686469429-8bdb88b9f907?q=80&w=1200&auto=format&fit=crop"),
      ("in_stock", Value.boolean true) ] ]

/-- `seed_products` (src/main.py lines 78-115): if the product collection
is non-empty, no-op with the existing count and an "already seeded"
message; otherwise insert the demo products one by one and return their
count. `db["product"].count_documents` is the collection's size
(spec section 4.1, `count`). -/
def seed_products (s : Store) : (String × Nat) × Store :=
  let count := (getColl s.colls "product").length
  if count > 0 then (("Products already seeded", count), s)
  else
    let s3 := demo.foldl (fun st d => (create_document st "product" d).snd) s
    (("Seeded", demo.length), s3)

/-- Python `str` applied to a document field value, as used on `_id` by
`list_products`. Only `oid` values ever reach it in src/main.py (the store
assigns every `_id`); the other renderings are included for totality, with
`num` left abstract since no endpoint renders a price to a string. -/
def pyStr : Value → String
  | Value.str t => t
  | Value.num _ => "<float repr not modelled: unused>"
  | Value.boolean true => "True"
  | Value.boolean false => "False"
  | Value.oid n => hex24 n
  | Value.items _ => "<list repr not modelled: unused>"

/-- Python `str(d.get(k))`: `str(None)` is the text "None". -/
def pyStrOpt : Option Value → String
  | some v => pyStr v
  | none => "None"

/-- The per-document rewrite of `list_products` (src/main.py lines 51-54):
`d["id"] = str(d.get("_id"))` then `d.pop("_id", None)`. -/
def publicView (d : Doc) : Doc :=
  dictPop (dictSet d "id" (Value.str (pyStrOpt (dictGet d "_id")))) "_id"

/-- `list_products` (src/main.py lines 46-57): fetch all product documents
and rewrite each one in store order. -/
def list_products (s : Store) : List Doc :=
  (get_documents s "product").map publicView

/-- A handle on the store database object, for the introspection done by
`test_database`: `hasattr(_db, 'name')` with the name when present, and the
outcome of `list_collection_names()` (a listing or a raised error message).
Modelled from the spec: the `database` module is not under src/; the
gateway "owns a connection to a document database" (spec section 2) and
lets underlying errors propagate to callers (spec section 4.1). -/
structure DBHandle where
  dbName : Option String
  listCollectionNames : Except String (List String)

/-- Outcome of `from database import db as _db` inside `test_database`:
the import succeeds yielding a handle or None, raises ImportError, or
raises some other exception with a message. -/
inductive ImportOutcome where
  | ok : Option DBHandle → ImportOutcome
  | importError : ImportOutcome
  | otherError : String → ImportOutcome

/-- Process environment as observed by `test_database`: `os.getenv` yields
the variable's value or None. -/
structure Env where
  databaseUrl : Option String
  databaseName : Option String

/-- Python truthiness of `os.getenv(...)`: set and non-empty. -/
def envTruthy : Option String → Bool
  | none => false
  | some v => !(v == "")

/-- The diagnostic object returned by `test_database` (src/main.py lines
121-128): `database_url` and `database_name` start as None and are strings
thereafter, hence `Option String` here. -/
structure TestResponse where
  backend : String
  database : String
  database_url : Option String
  database_name : Option String
  connection_status : String
  collections : List String
deriving DecidableEq

/-- `test_database` (src/main.py lines 118-158): build the diagnostic
object, fill it in from the store handle with every failure caught and
turned into a status string, then overwrite the env fields from
`os.getenv`. The embedding is a total function of the import outcome and
environment: every exception path of the source is one of the
`ImportOutcome` / `Except` cases, so the handler always returns normally. -/
def test_database (imp : ImportOutcome) (env : Env) : TestResponse :=
  let r0 : TestResponse :=
    { backend := "✅ Running"
      database := "❌ Not Available"
      database_url := none
      database_name := none
      connection_status := "Not Connected"
      collections := [] }
  let r1 :=
    match imp with
    | ImportOutcome.ok (some h) =>
        let r :=
          { r0 with
            database := "✅ Available"
            database_url := some "✅ Configured"
            database_name := some (match h.dbName with
              | some nm => nm
              | none => "✅ Connected")
            connection_status := "Connected" }
        match h.listCollectionNames with
        | Except.ok cols =>
            { r with collections := cols.take 10, database := "✅ Connected & Working" }
        | Except.error e =>
            { r with database := "⚠️  Connected but Error: " ++ e.take 50 }
    | ImportOutcome.ok none => { r0 with database := "⚠️  Available but not initialized" }
    | ImportOutcome.importError =>
        { r0 with database := "❌ Database module not found (run enable-database first)" }
    | ImportOutcome.otherError e => { r0 with database := "❌ Error: " ++ e.take 50 }
  { r1 with
    database_url := some (if envTruthy env.databaseUrl then "✅ Set" else "❌ Not Set")
    database_name := some (if envTruthy env.databaseName then "✅ Set" else "❌ Not Set") }

/-- The object identifiers stored in any collection of the store. -/
def docOid (d : Doc) : Option Nat :=
  match dictGet d "_id" with
  | some (Value.oid n) => some n
  | _ => none

/-- All object identifiers present anywhere in the store. -/
def storeOids (s : Store) : List Nat :=
  s.colls.foldr (fun p acc => p.snd.filterMap docOid ++ acc) []

theorem getColl_setColl_same (colls : List (String × List Doc)) (name : String)
    (ds : List Doc) : getColl (setColl colls name ds) name = ds := by
  induction colls with
  | nil => simp [getColl, setColl]
  | cons p rest ih =>
      by_cases h : p.fst = name
      · simp [getColl, setColl, h]
      · simp [getColl, setColl, h, ih]

theorem getColl_setColl_other (colls : List (String × List Doc)) (name c : String)
    (ds : List Doc) (h : c ≠ name) :
    getColl (setColl colls name ds) c = getColl colls c := by
  induction colls with
  | nil => simp [getColl, setColl, Ne.symm h]
  | cons p rest ih =>
      by_cases hp : p.fst = name
      · simp [getColl, setColl, hp, Ne.symm h]
      · by_cases hc : p.fst = c
        · simp [getColl, setColl, hp, hc, h]
        · simp [getColl, setColl, hp, hc, ih]

theorem dictGet_dictSet_same (d : Doc) (k : String) (v : Value) :
    dictGet (dictSet d k v) k = some v := by
  induction d with
  | nil => simp [dictSet, dictGet]
  | cons p rest ih =>
      by_cases h : p.fst = k
      · simp [dictSet, dictGet, h]
      · simp [dictSet, dictGet, h, ih]

theorem dictGet_dictSet_other (d : Doc) (k k' : String) (v : Value) (h : k' ≠ k) :
    dictGet (dictSet d k v) k' = dictGet d k' := by
  induction d with
  | nil => simp [dictSet, dictGet, Ne.symm h]
  | cons p rest ih =>
      by_cases hp : p.fst = k
      · simp [dictSet, dictGet, hp, Ne.symm h]
      · by_cases hc : p.fst = k'
        · simp [dictSet, dictGet, hp, hc, h]
        · simp [dictSet, dictGet, hp, hc, ih]

theorem dictGet_dictPop_same (d : Doc) (k : String) :
    dictGet (dictPop d k) k = none := by
  induction d with
  | nil => simp [dictPop, dictGet]
  | cons p rest ih =>
      by_cases h : p.fst = k
      · simp [dictPop, h, ih]
      · simp [dictPop, dictGet, h, ih]

theorem dictGet_dictPop_other (d : Doc) (k k' : String) (h : k' ≠ k) :
    dictGet (dictPop d k) k' = dictGet d k' := by
  induction d with
  | nil => simp [dictPop]
  | cons p rest ih =>
      by_cases hp : p.fst = k
      · simp [dictPop, dictGet, hp, Ne.symm h, ih]
      · by_cases hc : p.fst = k'
        · simp [dictPop, dictGet, hp, hc, h]
        · simp [dictPop, dictGet, hp, hc, ih]

theorem itemError_eq_none (s : Store) (i : OrderItem)
    (h1 : objectIdIsValid i.product_id = true)
    (h2 : (findProduct s i.product_id).isSome = true) :
    itemError s i = none := by
  unfold itemError
  rw [h1]
  simp only [Bool.true_eq_false, if_false]
  cases hf : findProduct s i.product_id with
  | none => rw [hf] at h2; simp [Option.isSome] at h2
  | some d => simp

theorem validateItems_of_all_pass (s : Store) (items : List OrderItem)
    (h : ∀ i ∈ items, itemError s i = none) :
    validateItems s items = none := by
  induction items with
  | nil => rfl
  | cons i rest ih =>
      have hi := h i (by simp)
      simp only [validateItems, hi]
      exact ih (fun j hj => h j (by simp [hj]))

theorem validateItems_append_pass (s : Store) (pre l : List OrderItem)
    (h : ∀ i ∈ pre, itemError s i = none) :
    validateItems s (pre ++ l) = validateItems s l := by
  induction pre with
  | nil => simp
  | cons i rest ih =>
      have hi := h i (by simp)
      simp only [List.cons_append, validateItems, hi]
      exact ih (fun j hj => h j (by simp [hj]))

theorem validateItems_isSome_of_invalid (s : Store) (items : List OrderItem)
    (h : ∃ i ∈ items, objectIdIsValid i.product_id = false) :
    (validateItems s items).isSome = true := by
  induction items with
  | nil => simp at h
  | cons i rest ih =>
      cases he : itemError s i with
      | some e => simp [validateItems, he]
      | none =>
          simp only [validateItems, he]
          obtain ⟨j, hj, hjbad⟩ := h
          rcases List.mem_cons.mp hj with hji | hjr
          · exfalso
            subst hji
            unfold itemError at he
            rw [hjbad] at he
            simp at he
          · exact ih ⟨j, hjr, hjbad⟩

theorem validateItems_notFound (s : Store) (items : List OrderItem)
    (hvalid : ∀ i ∈ items, objectIdIsValid i.product_id = true)
    (hmiss : ∃ i ∈ items, findProduct s i.product_id = none) :
    ∃ p, (∃ i ∈ items, i.product_id = p) ∧ findProduct s p = none ∧
      validateItems s items = some (ItemErr.notFound p) := by
  induction items with
  | nil => simp at hmiss
  | cons i rest ih =>
      have hvi := hvalid i (by simp)
      cases hf : findProduct s i.product_id with
      | none =>
          refine ⟨i.product_id, ⟨i, by simp, rfl⟩, hf, ?_⟩
          unfold validateItems itemError
          rw [hvi, hf]
          simp
      | some d =>
          have hie : itemError s i = none :=
            itemError_eq_none s i hvi (by rw [hf]; rfl)
          have hmiss' : ∃ j ∈ rest, findProduct s j.product_id = none := by
            obtain ⟨j, hj, hjn⟩ := hmiss
            rcases List.mem_cons.mp hj with hji | hjr
            · exfalso; rw [hji, hf] at hjn; cases hjn
            · exact ⟨j, hjr, hjn⟩
          obtain ⟨p, ⟨j, hj, hjp⟩, hpn, hval⟩ :=
            ih (fun j hj => hvalid j (by simp [hj])) hmiss'
          refine ⟨p, ⟨j, by simp [hj], hjp⟩, hpn, ?_⟩
          simp only [validateItems, hie]
          exact hval

/-- Claim C1 counterexample: an order request whose first line item is a
well-formed identifier with no matching product and whose second line item
is malformed ("bad") does contain a malformed product_id, yet `create_order`
fails with HTTP 404 (NotFound), not with the claimed HTTP 400
(InvalidInput). -/
theorem create_order_C1_counterexample :
    (∃ i ∈ (Order.mk [OrderItem.mk "aaaaaaaaaaaaaaaaaaaaaaaa" 1, OrderItem.mk "bad" 1]).items,
        objectIdIsValid i.product_id = false) ∧
    create_order (Store.mk [] 0)
        (Order.mk [OrderItem.mk "aaaaaaaaaaaaaaaaaaaaaaaa" 1, OrderItem.mk "bad" 1]) =
      (CreateOrderResult.error 404 "Product not found: aaaaaaaaaaaaaaaaaaaaaaaa",
       Store.mk [] 0) ∧
    ∀ detail,
      (create_order (Store.mk [] 0)
          (Order.mk [OrderItem.mk "aaaaaaaaaaaaaaaaaaaaaaaa" 1, OrderItem.mk "bad" 1])).fst ≠
        CreateOrderResult.error 400 detail := by
  refine ⟨⟨OrderItem.mk "bad" 1, by simp, by decide⟩, by decide, ?_⟩
  intro detail h
  have h' : CreateOrderResult.error 404 "Product not found: aaaaaaaaaaaaaaaaaaaaaaaa" =
      CreateOrderResult.error 400 detail := by
    rw [← h]
    decide
  injection h' with h1 h2
  exact absurd h1 (by decide)

/-- Claim C1 (amended): for every order request containing at least one
line item with a malformed product_id, `create_order` fails with an
HTTPException and no order document is inserted (the store is unchanged);
moreover, when every line item preceding the first malformed one passes
both the format check and the existence check, the failure is HTTP 400
(InvalidInput) naming that first malformed value. -/
theorem create_order_invalid_input (s : Store) (o : Order) :
    ((∃ i ∈ o.items, objectIdIsValid i.product_id = false) →
      (create_order s o).snd = s ∧
      ∃ code detail, (create_order s o).fst = CreateOrderResult.error code detail) ∧
    (∀ pre bad rest,
      o.items = pre ++ bad :: rest →
      (∀ i ∈ pre, itemError s i = none) →
      objectIdIsValid bad.product_id = false →
      create_order s o =
        (CreateOrderResult.error 400 ("Invalid product id: " ++ bad.product_id), s)) := by
  constructor
  · intro hbad
    have hsome := validateItems_isSome_of_invalid s o.items hbad
    cases hv : validateItems s o.items with
    | none => rw [hv] at hsome; simp at hsome
    | some e =>
        cases e with
        | invalid pid =>
            exact ⟨by simp [create_order, hv], 400, "Invalid product id: " ++ pid,
              by simp [create_order, hv]⟩
        | notFound pid =>
            exact ⟨by simp [create_order, hv], 404, "Product not found: " ++ pid,
              by simp [create_order, hv]⟩
  · intro pre bad rest hsplit hpre hbad
    have hv : validateItems s o.items = some (ItemErr.invalid bad.product_id) := by
      rw [hsplit, validateItems_append_pass s pre _ hpre]
      unfold validateItems itemError
      rw [hbad]
      simp
    simp [create_order, hv]

/-- Witness for `create_order_invalid_input`: the order request with the
single malformed item "bad" on the empty store is rejected with HTTP 400
naming "bad" and leaves the store unchanged. -/
theorem create_order_invalid_input_witness :
    (create_order (Store.mk [] 0) (Order.mk [OrderItem.mk "bad" 1])).snd = Store.mk [] 0 ∧
    create_order (Store.mk [] 0) (Order.mk [OrderItem.mk "bad" 1]) =
      (CreateOrderResult.error 400 "Invalid product id: bad", Store.mk [] 0) :=
  ⟨((create_order_invalid_input (Store.mk [] 0) (Order.mk [OrderItem.mk "bad" 1])).1
      ⟨OrderItem.mk "bad" 1, by simp, by decide⟩).1,
   (create_order_invalid_input (Store.mk [] 0) (Order.mk [OrderItem.mk "bad" 1])).2
      [] (OrderItem.mk "bad" 1) [] rfl (by simp) (by decide)⟩

/-- Claim C2: when every product_id of the request is well-formed but at
least one matches no existing product, `create_order` fails with HTTP 404
(NotFound) naming a missing value from the request, and the store is
unchanged (no order document inserted), even when earlier items were
valid. -/
theorem create_order_not_found (s : Store) (o : Order)
    (hvalid : ∀ i ∈ o.items, objectIdIsValid i.product_id = true)
    (hmiss : ∃ i ∈ o.items, findProduct s i.product_id = none) :
    ∃ p, (∃ i ∈ o.items, i.product_id = p) ∧ findProduct s p = none ∧
      create_order s o = (CreateOrderResult.error 404 ("Product not found: " ++ p), s) := by
  obtain ⟨p, hp, hpn, hv⟩ := validateItems_notFound s o.items hvalid hmiss
  exact ⟨p, hp, hpn, by simp [create_order, hv]⟩

/-- Witness for `create_order_not_found`: a request naming the well-formed
but absent identifier of 24 letters a, on the empty store. -/
theorem create_order_not_found_witness :
    ∃ p, (∃ i ∈ (Order.mk [OrderItem.mk "aaaaaaaaaaaaaaaaaaaaaaaa" 1]).items,
        i.product_id = p) ∧
      findProduct (Store.mk [] 0) p = none ∧
      create_order (Store.mk [] 0) (Order.mk [OrderItem.mk "aaaaaaaaaaaaaaaaaaaaaaaa" 1]) =
        (CreateOrderResult.error 404 ("Product not found: " ++ p), Store.mk [] 0) :=
  create_order_not_found (Store.mk [] 0) (Order.mk [OrderItem.mk "aaaaaaaaaaaaaaaaaaaaaaaa" 1])
    (by decide) ⟨OrderItem.mk "aaaaaaaaaaaaaaaaaaaaaaaa" 1, by simp, by decide⟩

/-- Claim C3: when every line item's product_id is well-formed and matches
an existing product, `create_order` appends exactly one order document to
the order collection (other collections unchanged), returns the
store-generated identifier of that insert rendered as a string with the
"created" status, and — given that every identifier already in the store
is below the generator state — that identifier is fresh (previously unseen
in the store). -/
theorem create_order_success (s : Store) (o : Order)
    (hok : ∀ i ∈ o.items,
      objectIdIsValid i.product_id = true ∧ (findProduct s i.product_id).isSome = true)
    (hfresh : ∀ n ∈ storeOids s, n < s.nextId) :
    create_order s o =
      (CreateOrderResult.created (hex24 s.nextId),
       { colls := setColl s.colls "order"
           (getColl s.colls "order" ++ [dictSet (orderToDoc o) "_id" (Value.oid s.nextId)]),
         nextId := s.nextId + 1 }) ∧
    getColl (create_order s o).snd.colls "order"
      = getColl s.colls "order" ++ [dictSet (orderToDoc o) "_id" (Value.oid s.nextId)] ∧
    (∀ c, c ≠ "order" → getColl (create_order s o).snd.colls c = getColl s.colls c) ∧
    s.nextId ∉ storeOids s ∧
    dictGet (dictSet (orderToDoc o) "_id" (Value.oid s.nextId)) "_id"
      = some (Value.oid s.nextId) := by
  have hv : validateItems s o.items = none :=
    validateItems_of_all_pass s o.items
      (fun i hi => itemError_eq_none s i (hok i hi).1 (hok i hi).2)
  have heq : create_order s o =
      (CreateOrderResult.created (hex24 s.nextId),
       { colls := setColl s.colls "order"
           (getColl s.colls "order" ++ [dictSet (orderToDoc o) "_id" (Value.oid s.nextId)]),
         nextId := s.nextId + 1 }) := by
    simp [create_order, hv, create_document]
  refine ⟨heq, ?_, ?_, ?_, dictGet_dictSet_same _ _ _⟩
  · rw [heq]
    exact getColl_setColl_same _ _ _
  · intro c hc
    rw [heq]
    exact getColl_setColl_other _ _ _ _ hc
  · intro hmem
    exact absurd (hfresh _ hmem) (lt_irrefl _)

/-- Witness for `create_order_success`: a store holding one product with
identifier 0 and generator state 1; ordering that product appends one
order document with the fresh identifier 1 and returns its rendering. -/
theorem create_order_success_witness :
    create_order
        (Store.mk [("product", [[("title", Value.str "t"), ("_id", Value.oid 0)]])] 1)
        (Order.mk [OrderItem.mk "000000000000000000000000" 1]) =
      (CreateOrderResult.created "000000000000000000000001",
       Store.mk
         [("product", [[("title", Value.str "t"), ("_id", Value.oid 0)]]),
          ("order",
           [[("items", Value.items [OrderItem.mk "000000000000000000000000" 1]),
             ("_id", Value.oid 1)]])] 2) ∧
    1 ∉ storeOids (Store.mk [("product", [[("title", Value.str "t"), ("_id", Value.oid 0)]])] 1) := by
  have h := create_order_success
      (Store.mk [("product", [[("title", Value.str "t"), ("_id", Value.oid 0)]])] 1)
      (Order.mk [OrderItem.mk "000000000000000000000000" 1])
      (by decide) (by decide)
  refine ⟨?_, h.2.2.2.1⟩
  rw [h.1]
  decide

/-- Claim C4: `create_order` examines the line items in client order and
stops at the first failing item: when every item before `bad` passes both
checks and `bad` fails one, the raised error names `bad`'s product_id
(400 for the format check, 404 for the existence check), the store is
unchanged, and the validation outcome does not depend on the items after
`bad` (they are never examined). -/
theorem create_order_fail_fast (s : Store) (o : Order) (pre : List OrderItem)
    (bad : OrderItem) (rest : List OrderItem) (e : ItemErr)
    (hsplit : o.items = pre ++ bad :: rest)
    (hpre : ∀ i ∈ pre, itemError s i = none)
    (hbad : itemError s bad = some e) :
    (e = ItemErr.invalid bad.product_id ∨ e = ItemErr.notFound bad.product_id) ∧
    create_order s o =
      ((match e with
        | ItemErr.invalid pid => CreateOrderResult.error 400 ("Invalid product id: " ++ pid)
        | ItemErr.notFound pid => CreateOrderResult.error 404 ("Product not found: " ++ pid)), s) ∧
    ∀ rest2, validateItems s (pre ++ bad :: rest2) = some e := by
  have hrest : ∀ rest2, validateItems s (pre ++ bad :: rest2) = some e := by
    intro rest2
    rw [validateItems_append_pass s pre _ hpre]
    simp [validateItems, hbad]
  have hv : validateItems s o.items = some e := by
    rw [hsplit]
    exact hrest rest
  have hform : e = ItemErr.invalid bad.product_id ∨ e = ItemErr.notFound bad.product_id := by
    unfold itemError at hbad
    split at hbad
    · injection hbad with h1
      exact Or.inl h1.symm
    · split at hbad
      · injection hbad with h1
        exact Or.inr h1.symm
      · cases hbad
  refine ⟨hform, ?_, hrest⟩
  rcases hform with h | h
  · subst h
    simp [create_order, hv]
  · subst h
    simp [create_order, hv]

/-- Witness for `create_order_fail_fast`: on the empty store, the first
item "bad" of the request is malformed, the second item is never examined
(the outcome is the same for every choice of remaining items), and the
response is HTTP 400 naming "bad". -/
theorem create_order_fail_fast_witness :
    (ItemErr.invalid "bad" = ItemErr.invalid (OrderItem.mk "bad" 1).product_id ∨
      ItemErr.invalid "bad" = ItemErr.notFound (OrderItem.mk "bad" 1).product_id) ∧
    create_order (Store.mk [] 0)
        (Order.mk [OrderItem.mk "bad" 1, OrderItem.mk "alsobad" 2]) =
      (CreateOrderResult.error 400 "Invalid product id: bad", Store.mk [] 0) ∧
    ∀ rest2, validateItems (Store.mk [] 0) ([] ++ OrderItem.mk "bad" 1 :: rest2) =
      some (ItemErr.invalid "bad") := by
  have h := create_order_fail_fast (Store.mk [] 0)
      (Order.mk [OrderItem.mk "bad" 1, OrderItem.mk "alsobad" 2])
      [] (OrderItem.mk "bad" 1) [OrderItem.mk "alsobad" 2] (ItemErr.invalid "bad")
      rfl (by simp) (by decide)
  exact ⟨h.1, h.2.1, h.2.2⟩

/-- Claim C10: an order request with an empty items list is accepted: the
validation loop is vacuous (no identifier or existence check fails), the
empty order document is inserted, and its generated identifier is returned
with the "created" status. -/
theorem create_order_empty_items (s : Store) (o : Order) (h : o.items = []) :
    validateItems s o.items = none ∧
    create_order s o =
      (CreateOrderResult.created (hex24 s.nextId),
       { colls := setColl s.colls "order"
           (getColl s.colls "order" ++ [dictSet (orderToDoc o) "_id" (Value.oid s.nextId)]),
         nextId := s.nextId + 1 }) := by
  have hv : validateItems s o.items = none := by
    rw [h]
    rfl
  exact ⟨hv, by simp [create_order, hv, create_document]⟩

/-- Witness for `create_order_empty_items`: the zero-item request on the
empty store is inserted and acknowledged as created. -/
theorem create_order_empty_items_witness :
    validateItems (Store.mk [] 0) (Order.mk []).items = none ∧
    create_order (Store.mk [] 0) (Order.mk []) =
      (CreateOrderResult.created "000000000000000000000000",
       Store.mk [("order", [[("items", Value.items []), ("_id", Value.oid 0)]])] 1) := by
  have h := create_order_empty_items (Store.mk [] 0) (Order.mk []) rfl
  refine ⟨h.1, ?_⟩
  rw [h.2]
  decide

theorem length_getColl_foldl_insert (ds : List Doc) (s : Store) (name : String) :
    (getColl (ds.foldl (fun st d => (create_document st name d).snd) s).colls name).length
      = (getColl s.colls name).length + ds.length := by
  induction ds generalizing s with
  | nil => simp
  | cons d rest ih =>
      simp only [List.foldl]
      rw [ih]
      have hstep : getColl ((create_document s name d).snd).colls name
          = getColl s.colls name ++ [dictSet d "_id" (Value.oid s.nextId)] := by
        simp [create_document, getColl_setColl_same]
      rw [hstep]
      simp only [List.length_append, List.length_cons, List.length_nil]
      omega

theorem seed_products_nonempty (t : Store)
    (h : 0 < (getColl t.colls "product").length) :
    seed_products t =
      (("Products already seeded", (getColl t.colls "product").length), t) := by
  unfold seed_products
  rw [if_pos h]

/-- Claim C5: `seed_products` is idempotent over sequential calls: on a
non-empty product collection it is a no-op returning the existing count
with the "already seeded" message, and on an empty collection it inserts
the 3 demo products and returns count 3 — so a second sequential call
starting from an empty collection leaves exactly 3 demo products, not 6. -/
theorem seed_products_idempotent (s : Store) :
    (0 < (getColl s.colls "product").length →
      seed_products s =
        (("Products already seeded", (getColl s.colls "product").length), s)) ∧
    ((getColl s.colls "product").length = 0 →
      (seed_products s).fst = ("Seeded", 3) ∧
      (getColl (seed_products s).snd.colls "product").length = 3 ∧
      seed_products (seed_products s).snd =
        (("Products already seeded", 3), (seed_products s).snd)) := by
  constructor
  · exact fun h => seed_products_nonempty s h
  · intro h
    have hnot : ¬ 0 < (getColl s.colls "product").length := by omega
    have e1 : seed_products s =
        (("Seeded", 3), demo.foldl (fun st d => (create_document st "product" d).snd) s) := by
      unfold seed_products
      rw [if_neg hnot]
      rfl
    have e2 : (getColl (seed_products s).snd.colls "product").length = 3 := by
      rw [e1, length_getColl_foldl_insert, h]
      rfl
    refine ⟨by rw [e1], e2, ?_⟩
    have h3 : 0 < (getColl (seed_products s).snd.colls "product").length := by
      rw [e2]
      omega
    rw [seed_products_nonempty _ h3, e2]

/-- Witness for `seed_products_idempotent`: starting from the empty store,
the first call seeds 3 products and the second call is a no-op reporting
count 3. -/
theorem seed_products_idempotent_witness :
    (seed_products (Store.mk [] 0)).fst = ("Seeded", 3) ∧
    (getColl (seed_products (Store.mk [] 0)).snd.colls "product").length = 3 ∧
    seed_products (seed_products (Store.mk [] 0)).snd =
      (("Products already seeded", 3), (seed_products (Store.mk [] 0)).snd) :=
  (seed_products_idempotent (Store.mk [] 0)).2 rfl

/-- Claim C6: `list_products` returns, in store order and one for one, the
product documents rewritten by `publicView`; each rewritten document has no
`_id` field, and its string `id` field is the hex rendering of the stored
document's store-generated identifier. -/
theorem list_products_roundtrip (s : Store) :
    (∀ k : Nat,
      (list_products s)[k]? = Option.map publicView (get_documents s "product")[k]?) ∧
    ∀ d ∈ get_documents s "product",
      dictGet (publicView d) "_id" = none ∧
      ∀ n, dictGet d "_id" = some (Value.oid n) →
        dictGet (publicView d) "id" = some (Value.str (hex24 n)) := by
  constructor
  · intro k
    simp [list_products]
  · intro d _hd
    refine ⟨dictGet_dictPop_same _ _, ?_⟩
    intro n hn
    unfold publicView
    rw [dictGet_dictPop_other _ _ _ (by decide), dictGet_dictSet_same, hn]
    rfl

/-- Witness for `list_products_roundtrip`: the first demo product document
inserted by seeding the empty store (whose store-generated identifier is
0) is listed with string id "000000000000000000000000" and without the
`_id` field. -/
theorem list_products_roundtrip_witness :
    dictGet (publicView
      [("title", Value.str "Classic Tee"),
       ("description", Value.str "Soft cotton tee in multiple colors."),
       ("price", Value.num 24.99),
       ("category", Value.str "Apparel"),
       ("image", Value.str "https://images.unsplash.com/photo-1512436991641-6745cdb1723f?q=80&w=1200&auto=format&fit=crop"),
       ("in_stock", Value.boolean true),
       ("_id", Value.oid 0)]) "_id" = none ∧
    dictGet (publicView
      [("title", Value.str "Classic Tee"),
       ("description", Value.str "Soft cotton tee in multiple colors."),
       ("price", Value.num 24.99),
       ("category", Value.str "Apparel"),
       ("image", Value.str "https://images.unsplash.com/photo-1512436991641-6745cdb1723f?q=80&w=1200&auto=format&fit=crop"),
       ("in_stock", Value.boolean true),
       ("_id", Value.oid 0)]) "id" = some (Value.str "000000000000000000000000") := by
  have h := (list_products_roundtrip (seed_products (Store.mk [] 0)).snd).2
    [("title", Value.str "Classic Tee"),
     ("description", Value.str "Soft cotton tee in multiple colors."),
     ("price", Value.num 24.99),
     ("category", Value.str "Apparel"),
     ("image", Value.str "https://images.unsplash.com/photo-1512436991641-6745cdb1723f?q=80&w=1200&auto=format&fit=crop"),
     ("in_stock", Value.boolean true),
     ("_id", Value.oid 0)] (List.Mem.head _)
  refine ⟨h.1, ?_⟩
  rw [h.2 0 (by decide)]
  decide

/-- Claim C9: when the product collection holds no documents,
`list_products` returns the empty sequence (and no error: the handler
computes a value). -/
theorem list_products_empty (s : Store) (h : get_documents s "product" = []) :
    list_products s = [] := by
  simp [list_products, h]

/-- Witness for `list_products_empty`: the empty store lists no products. -/
theorem list_products_empty_witness :
    get_documents (Store.mk [] 0) "product" = [] ∧ list_products (Store.mk [] 0) = [] :=
  ⟨rfl, list_products_empty (Store.mk [] 0) rfl⟩

/-- Claim C7: when the store is unreachable — no connection is established,
so the handle from the database module is absent or the import itself
fails — `test_database` still returns its diagnostic object (the embedding
is a total function, mirroring that every exception path in the handler is
caught), and its connection_status reports "Not Connected", which differs
from the connected state "Connected". -/
theorem test_database_unreachable (imp : ImportOutcome) (env : Env)
    (h : ∀ hdl : DBHandle, imp ≠ ImportOutcome.ok (some hdl)) :
    (test_database imp env).connection_status = "Not Connected" ∧
    (test_database imp env).connection_status ≠ "Connected" ∧
    (test_database imp env).backend = "✅ Running" := by
  have hcs : (test_database imp env).connection_status = "Not Connected" := by
    cases imp with
    | ok odb =>
        cases odb with
        | some hdl => exact absurd rfl (h hdl)
        | none => rfl
    | importError => rfl
    | otherError e => rfl
  have hb : (test_database imp env).backend = "✅ Running" := by
    cases imp with
    | ok odb =>
        cases odb with
        | some hdl =>
            cases hl : hdl.listCollectionNames with
            | ok cols => simp [test_database, hl]
            | error e => simp [test_database, hl]
        | none => rfl
    | importError => rfl
    | otherError e => rfl
  exact ⟨hcs, by rw [hcs]; decide, hb⟩

/-- Witness for `test_database_unreachable`: the database module imports
but its handle is None; the diagnostic object reports "Not Connected". -/
theorem test_database_unreachable_witness :
    (test_database (ImportOutcome.ok none) (Env.mk none none)).connection_status
      = "Not Connected" ∧
    (test_database (ImportOutcome.ok none) (Env.mk none none)).connection_status
      ≠ "Connected" ∧
    (test_database (ImportOutcome.ok none) (Env.mk none none)).backend = "✅ Running" :=
  test_database_unreachable (ImportOutcome.ok none) (Env.mk none none)
    (fun hdl hh => by injection hh with h1; cases h1)

/-- Claim C8: for every behavior of the import, the store handle and the
environment, `test_database` produces its diagnostic object (the embedding
is total: each source exception path is one of the modelled outcomes and
is turned into a status string), the recorded database status is a
non-empty descriptive string, at most the first 10 collection names are
reported, and when the collections are listable the report is exactly the
first 10 of them. -/
theorem test_database_absorbs (imp : ImportOutcome) (env : Env) :
    (test_database imp env).backend = "✅ Running" ∧
    (test_database imp env).collections.length ≤ 10 ∧
    (test_database imp env).database ≠ "" ∧
    (∀ hdl cols, imp = ImportOutcome.ok (some hdl) →
      hdl.listCollectionNames = Except.ok cols →
      (test_database imp env).collections = cols.take 10) := by
  refine ⟨?_, ?_, ?_, ?_⟩
  · cases imp with
    | ok odb =>
        cases odb with
        | some hdl =>
            cases hl : hdl.listCollectionNames with
            | ok cols => simp [test_database, hl]
            | error e => simp [test_database, hl]
        | none => rfl
    | importError => rfl
    | otherError e => rfl
  · cases imp with
    | ok odb =>
        cases odb with
        | some hdl =>
            cases hl : hdl.listCollectionNames with
            | ok cols =>
                have : (test_database (ImportOutcome.ok (some hdl)) env).collections
                    = cols.take 10 := by simp [test_database, hl]
                rw [this, List.length_take]
                exact Nat.min_le_left _ _
            | error e =>
                have : (test_database (ImportOutcome.ok (some hdl)) env).collections
                    = [] := by simp [test_database, hl]
                rw [this]
                decide
        | none =>
            have : (test_database (ImportOutcome.ok none) env).collections = [] := rfl
            rw [this]
            decide
    | importError =>
        have : (test_database ImportOutcome.importError env).collections = [] := rfl
        rw [this]
        decide
    | otherError e =>
        have : (test_database (ImportOutcome.otherError e) env).collections = [] := rfl
        rw [this]
        decide
  · cases imp with
    | ok odb =>
        cases odb with
        | some hdl =>
            cases hl : hdl.listCollectionNames with
            | ok cols =>
                have : (test_database (ImportOutcome.ok (some hdl)) env).database
                    = "✅ Connected & Working" := by simp [test_database, hl]
                rw [this]
                decide
            | error e =>
                have : (test_database (ImportOutcome.ok (some hdl)) env).database
                    = "⚠️  Connected but Error: " ++ e.take 50 := by simp [test_database, hl]
                rw [this]
                intro hc
                have hlen := congrArg String.length hc
                rw [String.length_append] at hlen
                have h1 : ("⚠️  Connected but Error: ").length = 25 := by decide
                rw [h1] at hlen
                simp [String.length_empty] at hlen
        | none =>
            have : (test_database (ImportOutcome.ok none) env).database
                = "⚠️  Available but not initialized" := rfl
            rw [this]
            decide
    | importError =>
        have : (test_database ImportOutcome.importError env).database
            = "❌ Database module not found (run enable-database first)" := rfl
        rw [this]
        decide
    | otherError e =>
        have : (test_database (ImportOutcome.otherError e) env).database
            = "❌ Error: " ++ e.take 50 := rfl
        rw [this]
        intro hc
        have hlen := congrArg String.length hc
        rw [String.length_append] at hlen
        have h1 : ("❌ Error: ").length = 9 := by decide
        rw [h1] at hlen
        simp [String.length_empty] at hlen
  · intro hdl cols heq hl
    subst heq
    simp [test_database, hl]

/-- Witness for `test_database_absorbs`: a handle whose collections are
listable as ["a", "b"]; the diagnostic object reports exactly those. -/
theorem test_database_absorbs_witness :
    (test_database
        (ImportOutcome.ok (some (DBHandle.mk (some "db") (Except.ok ["a", "b"]))))
        (Env.mk (some "u") none)).collections = ["a", "b"] := by
  have h := test_database_absorbs
      (ImportOutcome.ok (some (DBHandle.mk (some "db") (Except.ok ["a", "b"]))))
      (Env.mk (some "u") none)
  rw [h.2.2.2 (DBHandle.mk (some "db") (Except.ok ["a", "b"])) ["a", "b"] rfl rfl]
  rfl

end ECom
